import Mathlib

/-
  Verification of the EtabsModeling geometry pipeline.

  Shallow embedding of the Python source into Lean 4:
  * Python floats are modelled as ℚ (exact decimal arithmetic);
  * Python dicts keyed by floats/strings are modelled as association
    lists with insertion-order iteration, first-match lookup and
    in-place overwrite on key collision (matching dict semantics);
  * `min(keys, key=...)` is modelled as a fold keeping the first
    element attaining the minimum (Python's tie-breaking);
  * fallible code paths are modelled with `Option`/`Except`.
-/

set_option linter.unusedVariables false

namespace Etabs

/-- `models/element_infor.py`: `Story` dataclass (level, height, plus
defaulted display fields `is_master`, `similar_to`, `splice_above`,
`splice_height`, `color`). -/
structure Story where
  level : String
  height : ℚ
  is_master : Bool := false
  similar_to : String := "None"
  splice_above : Bool := false
  splice_height : ℚ := 0
  color : ℤ := 0
deriving DecidableEq, Repr

/-- `models/element_infor.py`: `RectColumn` dataclass. -/
structure RectColumn where
  level : String
  name : String
  material : String := ""
  b : ℚ := 0
  h : ℚ := 0
  long_bar_mat : String := ""
  tie_bar_mat : String := ""
  cover : ℚ := 0
  bars_2dir : ℤ := 0
  bars_3dir : ℤ := 0
  long_bar_size : String := ""
  tie_bar_size : String := ""
  tie_spacing : ℚ := 0
  tie_legs_2dir : ℤ := 0
  tie_legs_3dir : ℤ := 0
deriving DecidableEq, Repr

/-- `models/element_infor.py`: `CircColumn` dataclass. -/
structure CircColumn where
  level : String
  name : String
  material : String := ""
  dia : ℚ := 0
  long_bar_mat : String := ""
  tie_bar_mat : String := ""
  cover : ℚ := 0
  num_C_bars : ℤ := 0
  long_bar_size : String := ""
  tie_bar_size : String := ""
  tie_spacing : ℚ := 0
deriving DecidableEq, Repr

/-- `models/element_infor.py`: `Slab` dataclass (section-property record
for one story's slab, with super-dead and live area loads in psf). -/
structure Slab where
  level : String
  name : String
  material : String := ""
  slab_thk : ℚ := 0
  slab_prop : ℤ := 0
  shell_type : ℤ := 1
  sdl : ℚ := 0
  live : ℚ := 0
deriving DecidableEq, Repr

/-- A 3D point `(x, y, z)`, `models/geometry3d.py`: `Point3D`. -/
abbrev Point3D := ℚ × ℚ × ℚ

/-- `models/geometry3d.py`: `ColumnGeom` dataclass. -/
structure ColumnGeom where
  start_point : Point3D
  end_point : Point3D
  prop_name : String
  name : String := ""
deriving DecidableEq, Repr

/-- `models/geometry3d.py`: `SlabGeom` dataclass. -/
structure SlabGeom where
  num_points : ℕ
  x_coord : List ℚ
  y_coord : List ℚ
  z_coord : List ℚ
  prop_name : String
  name : String := ""
  sdl : ℚ := 0
  live : ℚ := 0
deriving DecidableEq, Repr

/-- Python dict built by a comprehension `{key(x): x for x in l}` and then
queried with `d.get(k)` / `k in d`: on duplicate keys the LAST entry wins,
so the lookup returns the last matching element.  Modelled as a fold that
overwrites the accumulator on every match. -/
def dict_lookup_last {α : Type} (key : α → String) (l : List α) (k : String) : Option α :=
  l.foldl (fun acc x => if key x = k then some x else acc) none

/-- `utils/extruder.py`: `calculate_story_elevations` — cumulative
elevations `[b, b+h₁, b+h₁+h₂, …]` for a bottom-up story list. -/
def calculate_story_elevations : List Story → ℚ → List ℚ
  | [], b => [b]
  | s :: rest, b => b :: calculate_story_elevations rest (b + s.height)

/-- The per-story bands of `utils/extruder.py`: each story paired with
`(elevations[idx], elevations[idx+1])`, exactly the values read by the
`for story_idx, story in enumerate(stories)` loops. -/
def bands (stories : List Story) (base_elevation : ℚ) : List (Story × ℚ × ℚ) :=
  let elevations := calculate_story_elevations stories base_elevation
  stories.zip (elevations.zip elevations.tail)

/-- `utils/extruder.py`: section-name resolution inside
`extrude_points_to_columns`: rectangular dict first, else circular dict,
else the sentinel `"Default"`. -/
def resolve_column_section (rect_columns : List RectColumn) (circ_columns : List CircColumn)
    (lvl : String) : String :=
  match dict_lookup_last RectColumn.level rect_columns lvl with
  | some c => c.name
  | none =>
    match dict_lookup_last CircColumn.level circ_columns lvl with
    | some c => c.name
    | none => "Default"

/-- The body of the inner loop of `extrude_points_to_columns`: the
`ColumnGeom` built for one point `(x, y)` and one story band
`(story, elevations[idx], elevations[idx+1])` — only the z coordinates
are multiplied by 12 (`# Convert to inches`), x and y pass through. -/
def column_geom_of_band (x y : ℚ) (rect_columns : List RectColumn)
    (circ_columns : List CircColumn) (sb : Story × ℚ × ℚ) : ColumnGeom :=
  match sb with
  | (story, z_bot, z_top) =>
    { start_point := (x, y, z_bot * 12)
      end_point := (x, y, z_top * 12)
      prop_name := resolve_column_section rect_columns circ_columns story.level }

/-- `utils/extruder.py`: `extrude_points_to_columns` — one `ColumnGeom`
per (point, story band). -/
def extrude_points_to_columns (dxf_points : List Point3D) (stories : List Story)
    (rect_columns : List RectColumn) (circ_columns : List CircColumn)
    (base_elevation : ℚ) : List ColumnGeom :=
  dxf_points.flatMap fun p =>
    match p with
    | (x, y, _) =>
      (bands stories base_elevation).map
        (column_geom_of_band x y rect_columns circ_columns)

/-- `utils/extruder.py`: `extrude_polylines_to_slabs` — one `SlabGeom`
per (polyline, story band), placed at the band's top elevation.  Only the
z coordinate is multiplied by 12; the comment `# Extract coordinates and
convert to inches` notwithstanding, x and y are passed through unscaled.
Unmatched levels get `"Default"` and zero loads.  The per-band loop body
is named `slab_geom_of_band`. -/
def slab_geom_of_band (poly_idx : ℕ) (polyline : List Point3D) (slabs : List Slab)
    (sb : Story × ℚ × ℚ) : SlabGeom :=
  match sb with
  | (story, _, z_top) =>
    let z_level := z_top * 12
    let level_slab := dict_lookup_last Slab.level slabs story.level
    { num_points := polyline.length
      x_coord := polyline.map fun p => p.1
      y_coord := polyline.map fun p => p.2.1
      z_coord := polyline.map fun _ => z_level
      prop_name := match level_slab with | some sl => sl.name | none => "Default"
      name := "S" ++ toString (poly_idx + 1) ++ "_" ++ story.level
      sdl := match level_slab with | some sl => sl.sdl | none => 0
      live := match level_slab with | some sl => sl.live | none => 0 }

def extrude_polylines_to_slabs (dxf_polylines : List (List Point3D)) (stories : List Story)
    (slabs : List Slab) (base_elevation : ℚ) : List SlabGeom :=
  (dxf_polylines.enum).flatMap fun pp =>
    match pp with
    | (poly_idx, polyline) =>
      (bands stories base_elevation).map (slab_geom_of_band poly_idx polyline slabs)

/-! ## `utils/build_etabs_data.py` -/

/-- `utils/build_etabs_data.py`: `EPS = 1e-3`. -/
def EPS : ℚ := 1 / 1000

/-- Rounding to the nearest integer with ties to even, the semantics of
Python's `round` builtin (used by `_round_key` via `round(x, 6)`). -/
def round_half_even (x : ℚ) : ℤ :=
  let f := ⌊x⌋
  let r := x - f
  if r < 1 / 2 then f
  else if 1 / 2 < r then f + 1
  else if f % 2 = 0 then f else f + 1

/-- `utils/build_etabs_data.py`: `_round_key` — `round(float(x), 6)`,
rounding an elevation key to 6 decimal places. -/
def round_key (x : ℚ) : ℚ :=
  (round_half_even (x * 1000000) : ℚ) / 1000000

/-- A Python `Dict[float, str]` in insertion order, modelled as an
association list. -/
abbrev LevelMap := List (ℚ × String)

/-- Lookup `m[k]` / `k in m` on a `LevelMap` (dict keys are unique, so
first-match lookup agrees with dict lookup). -/
def lookup_key : LevelMap → ℚ → Option String
  | [], _ => none
  | (k0, v0) :: rest, k => if k0 = k then some v0 else lookup_key rest k

/-- `m[k] = v` on a Python dict: overwrite in place when the key exists,
else append (preserving insertion order). -/
def dict_insert : LevelMap → ℚ → String → LevelMap
  | [], k, v => [(k, v)]
  | (k0, v0) :: rest, k, v =>
    if k0 = k then (k, v) :: rest else (k0, v0) :: dict_insert rest k v

/-- Python's `min(keys, key=lambda k: abs(k - z))`: first element
attaining the minimal distance, `none` on an empty list (where the
source raises `ValueError`). -/
def nearest_key (m : LevelMap) (z : ℚ) : Option ℚ :=
  match m.map Prod.fst with
  | [] => none
  | k :: ks => some (ks.foldl (fun best k1 => if |k1 - z| < |best - z| then k1 else best) k)

/-- `utils/build_etabs_data.py`: `find_level_by_base_elev` — exact
rounded-key match in the floor map, else the nearest key within `EPS`,
else `None`. -/
def find_level_by_base_elev (base_map : LevelMap) (z_value : ℚ) : Option String :=
  let z_key := round_key z_value
  match lookup_key base_map z_key with
  | some lvl => some lvl
  | none =>
    match nearest_key base_map z_value with
    | some nearest => if |nearest - z_value| ≤ EPS then lookup_key base_map nearest else none
    | none => none

/-- `utils/build_etabs_data.py`: `find_level_by_top_elev` — the same
lookup against the ceiling map. -/
def find_level_by_top_elev (top_map : LevelMap) (z_value : ℚ) : Option String :=
  let z_key := round_key z_value
  match lookup_key top_map z_key with
  | some lvl => some lvl
  | none =>
    match nearest_key top_map z_value with
    | some nearest => if |nearest - z_value| ≤ EPS then lookup_key top_map nearest else none
    | none => none

/-- Python truthiness of an `Optional[str]`: `None` and `""` are falsy
(the `if l:` tests in `nearest_level_for_z`). -/
def truthy : Option String → Bool
  | none => false
  | some s => !s.isEmpty

/-- `utils/build_etabs_data.py`: `nearest_level_for_z` — try the floor
map, then the ceiling map, else return the label of the nearest floor
key outright. -/
def nearest_level_for_z (base_map top_map : LevelMap) (z_value : ℚ) : Option String :=
  let l := find_level_by_base_elev base_map z_value
  if truthy l then l
  else
    let l2 := find_level_by_top_elev top_map z_value
    if truthy l2 then l2
    else
      match nearest_key base_map z_value with
      | some nearest => lookup_key base_map nearest
      | none => none

/-- The loop body of `build_story_mappings`: walk the bottom-up story
list accumulating `z`, inserting `base_map[round(z)] = level` and
`top_map[round(z + height)] = level`. -/
def build_maps_aux : List Story → ℚ → LevelMap × LevelMap → LevelMap × LevelMap
  | [], _, maps => maps
  | s :: rest, z, (bm, tm) =>
    let bm1 := dict_insert bm (round_key z) s.level
    let z_next := z + s.height
    let tm1 := dict_insert tm (round_key z_next) s.level
    build_maps_aux rest z_next (bm1, tm1)

/-- `utils/build_etabs_data.py`: `build_story_mappings` — reverse the
(top-down) story list to bottom-up order, then build the bottom-up
heights list and the base/top elevation maps from `z = 0`. -/
def build_story_mappings (stories : List Story) : List ℚ × LevelMap × LevelMap :=
  let bottom_up := stories.reverse
  let heights := bottom_up.map Story.height
  let maps := build_maps_aux bottom_up 0 ([], [])
  (heights, maps.1, maps.2)

/-- `Modelled from the spec:` the spreadsheet `Column` record of the
whole-building workflow (`models.element_infor.Column` is imported by
`build_etabs_data.py` but its class body is not under `src/`); per §3 a
Section Property Record keyed by `level`. -/
structure ExcelColumn where
  level : String
  name : String
deriving DecidableEq, Repr

/-- One merged record produced by `merge_columns`
(`{"level": ..., "prop": ..., "geom": ...}`). -/
structure MergedColumn where
  level : Option String
  prop : Option ExcelColumn
  geom : Point3D × Point3D
deriving DecidableEq, Repr

/-- The inner loop of `merge_columns`: walk a stack of top points,
carrying `prev_z` (the previous top) as the segment bottom, labelling
each segment by `find_level_by_base_elev` of its bottom. -/
def merge_stack (x y : ℚ) (story_base_map : LevelMap) (props : List ExcelColumn) :
    ℚ → List Point3D → List MergedColumn
  | _, [] => []
  | prev_z, (tx, ty, tz) :: rest =>
    let level_name := find_level_by_base_elev story_base_map prev_z
    let prop :=
      match level_name with
      | some lvl => dict_lookup_last ExcelColumn.level props lvl
      | none => none
    { level := level_name
      prop := prop
      geom := ((x, y, prev_z), (tx, ty, tz)) } :: merge_stack x y story_base_map props tz rest

/-- `utils/build_etabs_data.py`: `merge_columns` — for each stack of top
points (bottom-up), build segments from `prev_z = 0.0` upward and attach
level labels and spreadsheet props.  An empty stack raises `IndexError`
at `pts[0]` in the source; callers never produce one, and it is mapped
to no output here. -/
def merge_columns (columns_geo : List (List Point3D)) (story_base_map : LevelMap)
    (excel_columns : List ExcelColumn) : List MergedColumn :=
  columns_geo.flatMap fun stack =>
    match stack with
    | [] => []
    | (x, y, _) :: _ => merge_stack x y story_base_map excel_columns 0 stack

/-- The guard of `build_etabs_model_data` (lines 233-237): an empty
story table aborts with `RuntimeError("No stories found in Excel")` —
the spec's `EmptyStoryListError` — before the story mappings are built. -/
def build_model_story_data (stories : List Story) :
    Except String (List ℚ × LevelMap × LevelMap) :=
  if stories.length = 0 then Except.error "No stories found in Excel"
  else Except.ok (build_story_mappings stories)

/-! ## `utils/unit_config.py` and `modeling/model_slabs.py` -/

/-- `utils/unit_config.py`: `UnitSystem` enum. -/
inductive UnitSystem where
  | US
  | METRIC
deriving DecidableEq, Repr

/-- `utils/unit_config.py`: `UnitConfig` dataclass. -/
structure UnitConfig where
  system : UnitSystem
  etabs_unit_code : ℤ
  length_unit : String
  force_unit : String
  temp_unit : String
  story_input_unit : String
  length_to_model : ℚ
  force_to_model : ℚ
deriving DecidableEq, Repr

/-- `utils/unit_config.py`: `US_UNITS` (ft→in ×12). -/
def US_UNITS : UnitConfig :=
  ⟨UnitSystem.US, 1, "in", "lb", "F", "ft", 12, 1⟩

/-- `utils/unit_config.py`: `METRIC_UNITS` (m→mm ×1000). -/
def METRIC_UNITS : UnitConfig :=
  ⟨UnitSystem.METRIC, 9, "mm", "N", "C", "m", 1000, 1⟩

/-- `utils/unit_config.py`: `convert_story_height` — multiply by
`length_to_model`. -/
def convert_story_height (height : ℚ) (unit_config : UnitConfig) : ℚ :=
  height * unit_config.length_to_model

/-- `utils/unit_config.py`: `convert_load` — US area loads divide by 144
(psf→psi), everything else passes through. -/
def convert_load (load : ℚ) (unit_config : UnitConfig) (from_area : Bool) : ℚ :=
  if unit_config.system = UnitSystem.US then
    if from_area then load / 144 else load
  else load

/-- `modeling/model_slabs.py`: the load values `create_slabs_in_etabs`
assigns for one `SlabGeom` — `convert_load(…, from_area=True)` when a
unit config is passed, else the legacy `/ 144`. -/
def slab_assigned_loads (slab_geom : SlabGeom) (unit_config : Option UnitConfig) : ℚ × ℚ :=
  match unit_config with
  | some cfg => (convert_load slab_geom.sdl cfg true, convert_load slab_geom.live cfg true)
  | none => (slab_geom.sdl / 144, slab_geom.live / 144)

/-! ## `utils/level_by_level_extruder.py` -/

/-- `utils/level_by_level_extruder.py`: `extrude_level_columns` — the
per-story workflow.  The DXF reads are modelled by passing the extracted
point lists (`rect_points`, `circ_points`) directly.  The props dicts
are built only from records whose `level` equals the story's level, and
a point on either layer is emitted only when such a record exists
(`if prop_name:`); otherwise the point produces nothing. -/
def extrude_level_columns (story : Story) (z_bottom z_top : ℚ)
    (rect_columns : List RectColumn) (circ_columns : List CircColumn)
    (unit_config : UnitConfig) (rect_points circ_points : List Point3D) : List ColumnGeom :=
  let rect_prop :=
    dict_lookup_last RectColumn.level (rect_columns.filter fun c => c.level = story.level)
      story.level
  let circ_prop :=
    dict_lookup_last CircColumn.level (circ_columns.filter fun c => c.level = story.level)
      story.level
  let rect_geoms := rect_points.filterMap fun p =>
    match rect_prop with
    | none => none
    | some prop =>
      some { start_point := (p.1 * unit_config.length_to_model,
                             p.2.1 * unit_config.length_to_model, z_bottom)
             end_point := (p.1 * unit_config.length_to_model,
                           p.2.1 * unit_config.length_to_model, z_top)
             prop_name := prop.name : ColumnGeom }
  let circ_geoms := circ_points.filterMap fun p =>
    match circ_prop with
    | none => none
    | some prop =>
      some { start_point := (p.1 * unit_config.length_to_model,
                             p.2.1 * unit_config.length_to_model, z_bottom)
             end_point := (p.1 * unit_config.length_to_model,
                           p.2.1 * unit_config.length_to_model, z_top)
             prop_name := prop.name : ColumnGeom }
  rect_geoms ++ circ_geoms

/-! ## `utils/excel_processing.py` -/

/-- Python truthiness of a spreadsheet key cell (`if not row[0]`):
an empty/`None` cell is falsy. -/
def cell_truthy : Option String → Bool
  | none => false
  | some s => !s.isEmpty

/-- The shared row loop of every reader in `utils/excel_processing.py`
(rows start at `min_row=3`, i.e. after the fixed 2-row header): a row
whose key cell is falsy is skipped with `continue` — despite the inline
comment "Stop if the level name is blank" — and iteration proceeds with
the remaining rows. -/
def table_rows_scan {α : Type} (key_of : α → Option String) : List α → List α
  | [] => []
  | r :: rest =>
    if cell_truthy (key_of r) then r :: table_rows_scan key_of rest
    else table_rows_scan key_of rest

/-- A Story-sheet data row: key cell (level) and height cell. -/
abbrev StoryRow := Option String × ℚ

/-- `utils/excel_processing.py`: `read_story_table` restricted to its
pure row processing: scan the post-header rows, build `Story(level,
height)` records, and reverse (top-down sheet → bottom-up list). -/
def read_story_table (rows : List StoryRow) : List Story :=
  ((table_rows_scan Prod.fst rows).map fun r =>
    ({ level := r.1.getD "", height := r.2 } : Story)).reverse

/-- A Slab-sheet data row: key cell (level), material, f'c, name,
thickness, sdl, live — the cells read by `read_slab_table`. -/
abbrev SlabRow := Option String × String × ℤ × String × ℚ × ℚ × ℚ

/-- `utils/excel_processing.py`: `read_slab_table` restricted to its
pure row processing.  Blank-keyed rows are skipped with `continue`; on
the FIRST kept row the source calls
`Slab(level=…, material=…, fc=…, name=…, thickness=…, sdl=…, live=…)`,
passing the keywords `fc` and `thickness` that the `Slab` dataclass
(level, name, material, slab_thk, slab_prop, shell_type, sdl, live)
does not declare — so the call raises `TypeError` and the function can
never return a non-empty record list.  Only a table whose post-header
rows all have blank keys returns (the empty list). -/
def read_slab_table (rows : List SlabRow) : Except String (List Slab) :=
  match table_rows_scan Prod.fst rows with
  | [] => Except.ok []
  | _ :: _ => Except.error "TypeError: unexpected keyword argument fc"

/-! ## Spec-side definitions (written from the claims' words, for
refinement statements) -/

/-- Spec-side (§4.1 `floor_of`): the floor elevation of the story at
bottom-up index `i` — the base elevation plus the heights of the `i`
stories below it. -/
def story_base_elevation (bottom_up : List Story) (base : ℚ) (i : ℕ) : ℚ :=
  base + ((bottom_up.take i).map Story.height).sum

/-- Spec-side (claim C2): the section name of a column band — the
rectangular-column record matching the level if one exists (last match,
as a dict), else the circular-column record, else `"Default"`. -/
def column_section_claim (rect_columns : List RectColumn) (circ_columns : List CircColumn)
    (lvl : String) : String :=
  match rect_columns.reverse.find? (fun c => c.level == lvl) with
  | some c => c.name
  | none =>
    match circ_columns.reverse.find? (fun c => c.level == lvl) with
    | some c => c.name
    | none => "Default"

/-- Spec-side (claim C2): walking the story bands bottom-up from the
base elevation, emit for each band one column geometry from
`(x, y, z_bottom)` to `(x, y, z_top)` (model units, ×12). -/
def column_bands_claim (x y : ℚ) (rect_columns : List RectColumn)
    (circ_columns : List CircColumn) : List Story → ℚ → List ColumnGeom
  | [], _ => []
  | s :: rest, z =>
    { start_point := (x, y, z * 12)
      end_point := (x, y, (z + s.height) * 12)
      prop_name := column_section_claim rect_columns circ_columns s.level : ColumnGeom } ::
    column_bands_claim x y rect_columns circ_columns rest (z + s.height)

/-- Spec-side (claim C2): the shared-plan point extrusion — every plan
point replicated through every story band. -/
def extrude_points_to_columns_claim (dxf_points : List Point3D) (stories : List Story)
    (rect_columns : List RectColumn) (circ_columns : List CircColumn)
    (base_elevation : ℚ) : List ColumnGeom :=
  dxf_points.flatMap fun p =>
    match p with
    | (x, y, _) => column_bands_claim x y rect_columns circ_columns stories base_elevation

/-- Spec-side (claim C3, §3): one map lookup — exact rounded-key match
first, else the nearest key when it lies within `EPS`, else not found. -/
def map_lookup_claim (m : LevelMap) (z : ℚ) : Option String :=
  match lookup_key m (round_key z) with
  | some lvl => some lvl
  | none =>
    match nearest_key m z with
    | some k => if |k - z| ≤ EPS then lookup_key m k else none
    | none => none

/-- Spec-side (claim C3): the full level-at-elevation lookup — floor map
first, then ceiling map, then the label of the nearest floor key. -/
def level_lookup_claim (base_map top_map : LevelMap) (z : ℚ) : Option String :=
  match map_lookup_claim base_map z with
  | some lvl => some lvl
  | none =>
    match map_lookup_claim top_map z with
    | some lvl => some lvl
    | none =>
      match nearest_key base_map z with
      | some k => lookup_key base_map k
      | none => none

/-- The base-map entries inserted by `build_maps_aux` walking bottom-up
stories from elevation `z`: `(round_key z_i, level_i)` in order. -/
def base_entries : List Story → ℚ → List (ℚ × String)
  | [], _ => []
  | s :: rest, z => (round_key z, s.level) :: base_entries rest (z + s.height)

/-- The top-map entries inserted by `build_maps_aux`:
`(round_key (z_i + h_i), level_i)` in order. -/
def top_entries : List Story → ℚ → List (ℚ × String)
  | [], _ => []
  | s :: rest, z => (round_key (z + s.height), s.level) :: top_entries rest (z + s.height)

/-! ## Helper lemmas about the elevation frame -/

theorem calculate_story_elevations_length (stories : List Story) (b : ℚ) :
    (calculate_story_elevations stories b).length = stories.length + 1 := by
  induction stories generalizing b with
  | nil => rfl
  | cons s rest ih => simp [calculate_story_elevations, ih]

theorem calculate_story_elevations_ne_nil (stories : List Story) (b : ℚ) :
    calculate_story_elevations stories b ≠ [] := by
  cases stories <;> simp [calculate_story_elevations]

theorem calculate_story_elevations_head (stories : List Story) (b : ℚ) :
    (calculate_story_elevations stories b).head? = some b := by
  cases stories <;> rfl

theorem calculate_story_elevations_le (stories : List Story) (b : ℚ)
    (hpos : ∀ s ∈ stories, 0 ≤ s.height) :
    ∀ z ∈ calculate_story_elevations stories b, b ≤ z := by
  induction stories generalizing b with
  | nil =>
    intro z hz
    simp only [calculate_story_elevations, List.mem_singleton] at hz
    simp [hz]
  | cons s rest ih =>
    intro z hz
    simp only [calculate_story_elevations, List.mem_cons] at hz
    rcases hz with rfl | hz
    · exact le_refl z
    · have h1 : b + s.height ≤ z := by
        refine ih (b + s.height) ?_ z hz
        intro t ht
        exact hpos t (List.mem_cons_of_mem _ ht)
      have h2 : 0 ≤ s.height := hpos s (List.mem_cons_self _ _)
      linarith

theorem calculate_story_elevations_pairwise (stories : List Story) (b : ℚ)
    (hpos : ∀ s ∈ stories, 0 < s.height) :
    (calculate_story_elevations stories b).Pairwise (· < ·) := by
  induction stories generalizing b with
  | nil => simp [calculate_story_elevations]
  | cons s rest ih =>
    simp only [calculate_story_elevations, List.pairwise_cons]
    constructor
    · intro z hz
      have h1 : b + s.height ≤ z := by
        refine calculate_story_elevations_le rest (b + s.height) ?_ z hz
        intro t ht
        exact le_of_lt (hpos t (List.mem_cons_of_mem _ ht))
      have h2 : 0 < s.height := hpos s (List.mem_cons_self _ _)
      linarith
    · refine ih (b + s.height) ?_
      intro t ht
      exact hpos t (List.mem_cons_of_mem _ ht)

theorem calculate_story_elevations_getLast (stories : List Story) (b : ℚ) :
    (calculate_story_elevations stories b).getLast? =
      some (b + (stories.map Story.height).sum) := by
  induction stories generalizing b with
  | nil => simp [calculate_story_elevations]
  | cons s rest ih =>
    cases rest with
    | nil => simp [calculate_story_elevations]
    | cons t ts =>
      have h := ih (b + s.height)
      simp only [calculate_story_elevations] at h ⊢
      rw [List.getLast?_cons_cons]
      rw [h]
      simp [add_assoc]

/-! ## Claim C1 -/

/-- C1: for every non-empty story list with strictly positive heights
and every base elevation `b`, `calculate_story_elevations` returns
`n + 1` elevations, strictly increasing, starting at `b` and ending at
`b` plus the sum of all story heights. -/
theorem c1_elevation_frame (stories : List Story) (b : ℚ)
    (hne : stories ≠ []) (hpos : ∀ s ∈ stories, 0 < s.height) :
    (calculate_story_elevations stories b).length = stories.length + 1 ∧
    (calculate_story_elevations stories b).Pairwise (· < ·) ∧
    (calculate_story_elevations stories b).head? = some b ∧
    (calculate_story_elevations stories b).getLast? =
      some (b + (stories.map Story.height).sum) :=
  ⟨calculate_story_elevations_length stories b,
   calculate_story_elevations_pairwise stories b hpos,
   calculate_story_elevations_head stories b,
   calculate_story_elevations_getLast stories b⟩

/-- Witness for C1 at two stories of heights 10 and 20 and base 0. -/
theorem c1_elevation_frame_witness :
    (([⟨"L1", 10, false, "None", false, 0, 0⟩,
       ⟨"L2", 20, false, "None", false, 0, 0⟩] : List Story) ≠ [] ∧
     (∀ s ∈ ([⟨"L1", 10, false, "None", false, 0, 0⟩,
              ⟨"L2", 20, false, "None", false, 0, 0⟩] : List Story), 0 < s.height)) ∧
    (calculate_story_elevations
        [⟨"L1", 10, false, "None", false, 0, 0⟩,
         ⟨"L2", 20, false, "None", false, 0, 0⟩] 0).length = 2 + 1 ∧
    (calculate_story_elevations
        [⟨"L1", 10, false, "None", false, 0, 0⟩,
         ⟨"L2", 20, false, "None", false, 0, 0⟩] 0).Pairwise (· < ·) ∧
    (calculate_story_elevations
        [⟨"L1", 10, false, "None", false, 0, 0⟩,
         ⟨"L2", 20, false, "None", false, 0, 0⟩] 0).head? = some 0 ∧
    (calculate_story_elevations
        [⟨"L1", 10, false, "None", false, 0, 0⟩,
         ⟨"L2", 20, false, "None", false, 0, 0⟩] 0).getLast? =
      some (0 + (([⟨"L1", 10, false, "None", false, 0, 0⟩,
                   ⟨"L2", 20, false, "None", false, 0, 0⟩] : List Story).map Story.height).sum) := by
  have h1 : ([⟨"L1", 10, false, "None", false, 0, 0⟩,
              ⟨"L2", 20, false, "None", false, 0, 0⟩] : List Story) ≠ [] := by simp
  have h2 : ∀ s ∈ ([⟨"L1", 10, false, "None", false, 0, 0⟩,
                    ⟨"L2", 20, false, "None", false, 0, 0⟩] : List Story), 0 < s.height := by
    intro s hs
    rcases List.mem_cons.1 hs with rfl | hs
    · norm_num
    · rcases List.mem_cons.1 hs with rfl | hs
      · norm_num
      · cases hs
  exact ⟨⟨h1, h2⟩, c1_elevation_frame _ 0 h1 h2⟩

/-! ## Helper lemmas: dict lookups and bands -/

theorem find?_append_eq {α : Type} (p : α → Bool) (l1 l2 : List α) :
    (l1 ++ l2).find? p =
      match l1.find? p with
      | some a => some a
      | none => l2.find? p := by
  induction l1 with
  | nil => simp
  | cons a t ih =>
    by_cases h : p a <;> simp [List.find?_cons, h, ih]

theorem dict_lookup_last_eq_find_reverse {α : Type} [DecidableEq α]
    (key : α → String) (l : List α) (k : String) :
    dict_lookup_last key l k = l.reverse.find? (fun x => key x == k) := by
  suffices h : ∀ (acc : Option α),
      l.foldl (fun acc x => if key x = k then some x else acc) acc =
        match l.reverse.find? (fun x => key x == k) with
        | some y => some y
        | none => acc by
    have h0 := h none
    rcases hf : l.reverse.find? (fun x => key x == k) with _ | y <;>
      simp only [hf] at h0 <;> simpa [dict_lookup_last] using h0
  induction l with
  | nil => intro acc; simp
  | cons a t ih =>
    intro acc
    simp only [List.foldl_cons, List.reverse_cons]
    rw [ih, find?_append_eq]
    rcases hfind : t.reverse.find? (fun x => key x == k) with _ | y
    · by_cases h : key a = k
      · simp [List.find?, h]
      · have hb : (key a == k) = false := by simp [h]
        simp [List.find?, h, hb]
    · simp

theorem dict_lookup_last_eq_none {α : Type} [DecidableEq α]
    (key : α → String) (l : List α) (k : String)
    (h : ∀ x ∈ l, key x ≠ k) : dict_lookup_last key l k = none := by
  rw [dict_lookup_last_eq_find_reverse]
  rw [List.find?_eq_none]
  intro x hx
  simpa using h x (List.mem_reverse.1 hx)

theorem bands_cons (s : Story) (rest : List Story) (b : ℚ) :
    bands (s :: rest) b = (s, b, b + s.height) :: bands rest (b + s.height) := by
  cases rest with
  | nil => simp [bands, calculate_story_elevations]
  | cons t ts =>
    simp [bands, calculate_story_elevations]

theorem bands_mem_story {stories : List Story} {b : ℚ} {sb : Story × ℚ × ℚ}
    (h : sb ∈ bands stories b) : sb.1 ∈ stories := by
  induction stories generalizing b with
  | nil => simp [bands, calculate_story_elevations] at h
  | cons s rest ih =>
    rw [bands_cons] at h
    rcases List.mem_cons.1 h with rfl | h
    · exact List.mem_cons_self _ _
    · exact List.mem_cons_of_mem _ (ih h)

theorem bands_length (stories : List Story) (b : ℚ) :
    (bands stories b).length = stories.length := by
  induction stories generalizing b with
  | nil => simp [bands, calculate_story_elevations]
  | cons s rest ih => rw [bands_cons]; simp [ih]

/-! ## Claim C2 -/

theorem resolve_column_section_eq_claim (rect_columns : List RectColumn)
    (circ_columns : List CircColumn) (lvl : String) :
    resolve_column_section rect_columns circ_columns lvl =
      column_section_claim rect_columns circ_columns lvl := by
  unfold resolve_column_section column_section_claim
  rw [dict_lookup_last_eq_find_reverse, dict_lookup_last_eq_find_reverse]

theorem column_bands_claim_length (x y : ℚ) (rect_columns : List RectColumn)
    (circ_columns : List CircColumn) (stories : List Story) (z : ℚ) :
    (column_bands_claim x y rect_columns circ_columns stories z).length = stories.length := by
  induction stories generalizing z with
  | nil => rfl
  | cons s rest ih => simp [column_bands_claim, ih]

theorem bands_map_geom_eq (x y : ℚ) (rect_columns : List RectColumn)
    (circ_columns : List CircColumn) (stories : List Story) (z : ℚ) :
    (bands stories z).map (column_geom_of_band x y rect_columns circ_columns) =
      column_bands_claim x y rect_columns circ_columns stories z := by
  induction stories generalizing z with
  | nil => simp [bands, calculate_story_elevations, column_bands_claim]
  | cons s rest ih =>
    rw [bands_cons, List.map_cons, ih]
    simp only [column_bands_claim, column_geom_of_band,
      resolve_column_section_eq_claim]

theorem extrude_points_to_columns_claim_length (dxf_points : List Point3D)
    (stories : List Story) (rect_columns : List RectColumn)
    (circ_columns : List CircColumn) (b : ℚ) :
    (extrude_points_to_columns_claim dxf_points stories rect_columns circ_columns b).length =
      dxf_points.length * stories.length := by
  induction dxf_points with
  | nil => simp [extrude_points_to_columns_claim]
  | cons p tl ih =>
    obtain ⟨px, py, pz⟩ := p
    simp only [extrude_points_to_columns_claim, List.flatMap_cons] at ih ⊢
    simp [column_bands_claim_length, ih, Nat.succ_mul, Nat.add_comm]

/-- C2: the shared-plan point extrusion emits exactly one `ColumnGeom`
per (point, story band) — from `(x, y, z_bottom)` to `(x, y, z_top)` in
model units — with the section name resolved rectangular-record first,
then circular record, then `"Default"` (proved as equality with the
spec-worded `extrude_points_to_columns_claim`, plus the count); and in
the 3-story scenario with one point and one RectColumn record for `L2`
only, exactly 3 `ColumnGeom`s at bands `[0,10],[10,20],[20,30]` (×12 in
inches) are produced, the middle one carrying the `L2` record's name and
the others `"Default"`. -/
theorem c2_point_extrusion :
    (∀ (dxf_points : List Point3D) (stories : List Story)
        (rect_columns : List RectColumn) (circ_columns : List CircColumn) (b : ℚ),
      extrude_points_to_columns dxf_points stories rect_columns circ_columns b =
        extrude_points_to_columns_claim dxf_points stories rect_columns circ_columns b ∧
      (extrude_points_to_columns dxf_points stories rect_columns circ_columns b).length =
        dxf_points.length * stories.length) ∧
    extrude_points_to_columns [(5, 5, 0)]
        [⟨"L1", 10, false, "None", false, 0, 0⟩,
         ⟨"L2", 10, false, "None", false, 0, 0⟩,
         ⟨"L3", 10, false, "None", false, 0, 0⟩]
        [⟨"L2", "C24X24", "", 0, 0, "", "", 0, 0, 0, "", "", 0, 0, 0⟩] [] 0 =
      [⟨(5, 5, 0), (5, 5, 120), "Default", ""⟩,
       ⟨(5, 5, 120), (5, 5, 240), "C24X24", ""⟩,
       ⟨(5, 5, 240), (5, 5, 360), "Default", ""⟩] := by
  have hmain : ∀ (dxf_points : List Point3D) (stories : List Story)
      (rect_columns : List RectColumn) (circ_columns : List CircColumn) (b : ℚ),
      extrude_points_to_columns dxf_points stories rect_columns circ_columns b =
        extrude_points_to_columns_claim dxf_points stories rect_columns circ_columns b := by
    intro dxf_points stories rect_columns circ_columns b
    induction dxf_points with
    | nil => rfl
    | cons p tl ih =>
      obtain ⟨px, py, pz⟩ := p
      simp only [extrude_points_to_columns, extrude_points_to_columns_claim,
        List.flatMap_cons] at ih ⊢
      rw [bands_map_geom_eq]
      rw [ih]
  refine ⟨fun pts stories rects circs b => ⟨hmain pts stories rects circs b, ?_⟩, ?_⟩
  · rw [hmain]
    exact extrude_points_to_columns_claim_length pts stories rects circs b
  · norm_num [extrude_points_to_columns, bands, calculate_story_elevations,
      column_geom_of_band, resolve_column_section, dict_lookup_last]
    all_goals decide

/-! ## Claim C8 -/

/-- C8: building the model data from an empty story sequence fails with
the empty-story-list error (`RuntimeError("No stories found in Excel")`,
the spec's `EmptyStoryListError`) instead of producing story mappings. -/
theorem c8_empty_story_list_rejected :
    build_model_story_data [] = Except.error "No stories found in Excel" := rfl

/-! ## Claim C9 -/

/-- C9 (divergence witness): the claimed stop-at-first-blank behavior
fails in two ways.  The story reader does NOT stop at the first row with
a blank key — it `continue`s: with data rows `A`, blank, `B` (after the
2-row header) it returns `[B, A]` (reversed to bottom-up), containing
the post-blank row `B` that a stop-at-first-blank reader would exclude.
And the slab reader never returns the claimed record sequence at all:
its `Slab(...)` constructor call passes keywords (`fc`, `thickness`)
the dataclass does not declare, so the same table raises `TypeError`
on the first kept row. -/
theorem c9_blank_key_row_does_not_stop :
    read_story_table [(some "A", 1), (none, 0), (some "B", 2)] =
      [⟨"B", 2, false, "None", false, 0, 0⟩, ⟨"A", 1, false, "None", false, 0, 0⟩] ∧
    read_slab_table
        [(some "A", "M", 4000, "S8", 8, 20, 40),
         (none, "", 0, "", 0, 0, 0),
         (some "B", "M", 4000, "S9", 8, 25, 50)] =
      Except.error "TypeError: unexpected keyword argument fc" := by
  constructor <;> rfl

/-! ## Claim C5 -/

/-- C5 (scenario, with divergence): one 4-vertex polygon on the slab
layer over story `L1` (height 10, base 0) with a Slab record
`sdl = 20, live = 40` produces exactly one `SlabGeom`; its z coordinates
all equal `120` (10 ft × 12) and its assigned loads are `20/144` and
`40/144` psi (both through `convert_load` with `US_UNITS` and through
the legacy `/144` path) — but its x/y coordinates are NOT unit-converted:
they stay `[0, 5, 5, 0]`/`[0, 0, 5, 5]` feet rather than being
multiplied by 12. -/
theorem c5_slab_scenario_units :
    (extrude_polylines_to_slabs [[(0, 0, 0), (5, 0, 0), (5, 5, 0), (0, 5, 0)]]
        [⟨"L1", 10, false, "None", false, 0, 0⟩]
        [⟨"L1", "S8", "", 0, 0, 1, 20, 40⟩] 0).map
      (fun g => (g.num_points, g.x_coord, g.y_coord, g.z_coord, g.prop_name, g.sdl, g.live)) =
      [(4, [0, 5, 5, 0], [0, 0, 5, 5], [120, 120, 120, 120], "S8", 20, 40)] ∧
    (extrude_polylines_to_slabs [[(0, 0, 0), (5, 0, 0), (5, 5, 0), (0, 5, 0)]]
        [⟨"L1", 10, false, "None", false, 0, 0⟩]
        [⟨"L1", "S8", "", 0, 0, 1, 20, 40⟩] 0).map
      (fun g => slab_assigned_loads g (some US_UNITS)) = [(20 / 144, 40 / 144)] ∧
    (extrude_polylines_to_slabs [[(0, 0, 0), (5, 0, 0), (5, 5, 0), (0, 5, 0)]]
        [⟨"L1", 10, false, "None", false, 0, 0⟩]
        [⟨"L1", "S8", "", 0, 0, 1, 20, 40⟩] 0).map
      (fun g => slab_assigned_loads g none) = [(20 / 144, 40 / 144)] := by
  refine ⟨?_, ?_, ?_⟩ <;>
    norm_num [extrude_polylines_to_slabs, slab_geom_of_band, bands,
      calculate_story_elevations, dict_lookup_last, List.enum, slab_assigned_loads,
      convert_load, US_UNITS, List.replicate]

/-! ## Claim C7 -/

/-- C7 (counterexample): in the per-story (level-by-level) workflow an
unmatched plan primitive IS dropped — one rectangular-column point with
no matching record for `L1` produces no `ColumnGeom` at all, rather than
a geometry carrying the sentinel `"Default"`. -/
theorem c7_counterexample_per_story_drops :
    extrude_level_columns ⟨"L1", 10, false, "None", false, 0, 0⟩ 0 120 [] [] US_UNITS
      [(5, 5, 0)] [] = [] := rfl

theorem flatMap_map_bands_length {α : Type} (pl : List α)
    (stories : List Story) (b : ℚ) (f : α → Story × ℚ × ℚ → SlabGeom) :
    (pl.flatMap fun pp => (bands stories b).map (f pp)).length =
      pl.length * stories.length := by
  induction pl with
  | nil => simp
  | cons pp tl ih =>
    simp [List.flatMap_cons, ih, bands_length, Nat.succ_mul, Nat.add_comm]

/-- C7 (amended): an unmatched plan primitive never aborts the run,
but the two workflows treat it differently.  In the shared-plan workflow
(`extrude_polylines_to_slabs`) every (polyline, story band) pair still
yields a `SlabGeom`, carrying the sentinel `"Default"` and zero
super-dead/live loads when no slab record matches the band's level.  In
the per-story workflow (`extrude_level_columns`) a primitive with no
matching record for the story is dropped: no geometry is emitted. -/
theorem c7_unmatched_primitive_policy :
    (∀ (dxf_polylines : List (List Point3D)) (stories : List Story)
        (slabs : List Slab) (b : ℚ),
      (∀ sl ∈ slabs, ∀ st ∈ stories, sl.level ≠ st.level) →
      (extrude_polylines_to_slabs dxf_polylines stories slabs b).length =
        dxf_polylines.length * stories.length ∧
      ∀ g ∈ extrude_polylines_to_slabs dxf_polylines stories slabs b,
        g.prop_name = "Default" ∧ g.sdl = 0 ∧ g.live = 0) ∧
    (∀ (story : Story) (z_bottom z_top : ℚ) (rect_columns : List RectColumn)
        (circ_columns : List CircColumn) (cfg : UnitConfig)
        (rect_points circ_points : List Point3D),
      (∀ c ∈ rect_columns, c.level ≠ story.level) →
      (∀ c ∈ circ_columns, c.level ≠ story.level) →
      extrude_level_columns story z_bottom z_top rect_columns circ_columns cfg
        rect_points circ_points = []) := by
  constructor
  · intro dxf_polylines stories slabs b hdisj
    constructor
    · rw [extrude_polylines_to_slabs, flatMap_map_bands_length]
      simp
    · intro g hg
      rw [extrude_polylines_to_slabs] at hg
      rcases List.mem_flatMap.1 hg with ⟨pp, hpp, hmem⟩
      obtain ⟨poly_idx, polyline⟩ := pp
      rcases List.mem_map.1 hmem with ⟨sb, hsb, rfl⟩
      have hst : sb.1 ∈ stories := bands_mem_story hsb
      have hnone : dict_lookup_last Slab.level slabs sb.1.level = none := by
        refine dict_lookup_last_eq_none _ _ _ ?_
        intro sl hsl
        exact hdisj sl hsl sb.1 hst
      obtain ⟨st, z_bot, z_top⟩ := sb
      simp only [slab_geom_of_band] at hnone ⊢
      simp [hnone]
  · intro story z_bottom z_top rect_columns circ_columns cfg rect_points circ_points
      hrect hcirc
    have h1 : rect_columns.filter (fun c => c.level = story.level) = [] := by
      rw [List.filter_eq_nil_iff]
      intro c hc
      simpa using hrect c hc
    have h2 : circ_columns.filter (fun c => c.level = story.level) = [] := by
      rw [List.filter_eq_nil_iff]
      intro c hc
      simpa using hcirc c hc
    simp [extrude_level_columns, h1, h2, dict_lookup_last]

/-- Witness for C7 at one triangle polyline, one story, one disjoint
slab record, and one rectangular point with a disjoint column record. -/
theorem c7_unmatched_primitive_policy_witness :
    (∀ sl ∈ ([⟨"L9", "S9", "", 0, 0, 1, 5, 6⟩] : List Slab),
      ∀ st ∈ ([⟨"L1", 10, false, "None", false, 0, 0⟩] : List Story), sl.level ≠ st.level) ∧
    ((extrude_polylines_to_slabs [[(0, 0, 0), (1, 0, 0), (1, 1, 0)]]
        [⟨"L1", 10, false, "None", false, 0, 0⟩]
        [⟨"L9", "S9", "", 0, 0, 1, 5, 6⟩] 0).length = 1 * 1 ∧
      ∀ g ∈ extrude_polylines_to_slabs [[(0, 0, 0), (1, 0, 0), (1, 1, 0)]]
          [⟨"L1", 10, false, "None", false, 0, 0⟩]
          [⟨"L9", "S9", "", 0, 0, 1, 5, 6⟩] 0,
        g.prop_name = "Default" ∧ g.sdl = 0 ∧ g.live = 0) ∧
    ((∀ c ∈ ([⟨"L9", "C9", "", 0, 0, "", "", 0, 0, 0, "", "", 0, 0, 0⟩] : List RectColumn),
        c.level ≠ "L2") ∧
      extrude_level_columns ⟨"L2", 10, false, "None", false, 0, 0⟩ 0 120
        [⟨"L9", "C9", "", 0, 0, "", "", 0, 0, 0, "", "", 0, 0, 0⟩] [] US_UNITS
        [(1, 2, 0)] [] = []) := by
  have hdisj : ∀ sl ∈ ([⟨"L9", "S9", "", 0, 0, 1, 5, 6⟩] : List Slab),
      ∀ st ∈ ([⟨"L1", 10, false, "None", false, 0, 0⟩] : List Story), sl.level ≠ st.level := by
    intro sl hsl st hst
    rcases List.mem_singleton.1 hsl with rfl
    rcases List.mem_singleton.1 hst with rfl
    decide
  have hrect : ∀ c ∈ ([⟨"L9", "C9", "", 0, 0, "", "", 0, 0, 0, "", "", 0, 0, 0⟩] :
      List RectColumn), c.level ≠ "L2" := by
    intro c hc
    rcases List.mem_singleton.1 hc with rfl
    decide
  have hcirc : ∀ c ∈ ([] : List CircColumn), c.level ≠ "L2" := by
    intro c hc
    cases hc
  refine ⟨hdisj, c7_unmatched_primitive_policy.1 _ _ _ 0 hdisj, hrect, ?_⟩
  have h := c7_unmatched_primitive_policy.2
    ⟨"L2", 10, false, "None", false, 0, 0⟩ 0 120
    [⟨"L9", "C9", "", 0, 0, "", "", 0, 0, 0, "", "", 0, 0, 0⟩] [] US_UNITS
    [(1, 2, 0)] [] hrect hcirc
  exact h

/-! ## Helper lemmas: map lookups -/

theorem lookup_key_mem {m : LevelMap} {k : ℚ} {v : String}
    (h : lookup_key m k = some v) : (k, v) ∈ m := by
  induction m with
  | nil => cases h
  | cons p rest ih =>
    obtain ⟨k0, v0⟩ := p
    by_cases hk : k0 = k
    · subst hk
      simp only [lookup_key, if_pos rfl] at h
      cases h
      exact List.mem_cons_self _ _
    · simp only [lookup_key, if_neg hk] at h
      exact List.mem_cons_of_mem _ (ih h)

theorem lookup_key_isSome_of_mem {m : LevelMap} {k : ℚ}
    (h : k ∈ m.map Prod.fst) : ∃ v, lookup_key m k = some v := by
  induction m with
  | nil => simp at h
  | cons p rest ih =>
    obtain ⟨k0, v0⟩ := p
    by_cases hk : k0 = k
    · subst hk
      exact ⟨v0, by simp [lookup_key]⟩
    · rcases List.mem_map.1 h with ⟨q, hq, hfst⟩
      rcases List.mem_cons.1 hq with rfl | hq
      · exact absurd hfst hk
      · rcases ih (List.mem_map.2 ⟨q, hq, hfst⟩) with ⟨v, hv⟩
        exact ⟨v, by simp [lookup_key, hk, hv]⟩

theorem nearest_key_mem {m : LevelMap} {z : ℚ} {k : ℚ}
    (h : nearest_key m z = some k) : k ∈ m.map Prod.fst := by
  unfold nearest_key at h
  rcases hkeys : m.map Prod.fst with _ | ⟨k0, ks⟩
  · rw [hkeys] at h; cases h
  · rw [hkeys] at h
    simp only [Option.some.injEq] at h
    have hmem : ∀ (l : List ℚ) (a : ℚ),
        l.foldl (fun best k1 => if |k1 - z| < |best - z| then k1 else best) a ∈ a :: l := by
      intro l
      induction l with
      | nil => intro a; simp
      | cons b t iht =>
        intro a
        by_cases hc : |b - z| < |a - z|
        · simp only [List.foldl_cons, if_pos hc]
          exact List.mem_cons_of_mem _ (iht b)
        · simp only [List.foldl_cons, if_neg hc]
          rcases List.mem_cons.1 (iht a) with heq | hmem2
          · rw [heq]; exact List.mem_cons_self _ _
          · exact List.mem_cons_of_mem _ (List.mem_cons_of_mem _ hmem2)
    rw [← h]
    exact hmem ks k0

theorem nearest_key_isSome {m : LevelMap} (hne : m ≠ []) (z : ℚ) :
    ∃ k, nearest_key m z = some k := by
  unfold nearest_key
  rcases hkeys : m.map Prod.fst with _ | ⟨k0, ks⟩
  · exact absurd (List.map_eq_nil_iff.1 hkeys) hne
  · exact ⟨_, rfl⟩

theorem find_level_by_base_elev_value_mem {m : LevelMap} {z : ℚ} {l : String}
    (h : find_level_by_base_elev m z = some l) : ∃ k, (k, l) ∈ m := by
  rcases h1 : lookup_key m (round_key z) with _ | v
  · simp only [find_level_by_base_elev, h1] at h
    rcases h2 : nearest_key m z with _ | nearest
    · simp only [h2] at h
      cases h
    · simp only [h2] at h
      by_cases h3 : |nearest - z| ≤ EPS
      · rw [if_pos h3] at h
        exact ⟨nearest, lookup_key_mem h⟩
      · rw [if_neg h3] at h; cases h
  · simp only [find_level_by_base_elev, h1, Option.some.injEq] at h
    rw [← h]
    exact ⟨round_key z, lookup_key_mem h1⟩

theorem find_level_by_top_elev_value_mem {m : LevelMap} {z : ℚ} {l : String}
    (h : find_level_by_top_elev m z = some l) : ∃ k, (k, l) ∈ m := by
  rcases h1 : lookup_key m (round_key z) with _ | v
  · simp only [find_level_by_top_elev, h1] at h
    rcases h2 : nearest_key m z with _ | nearest
    · simp only [h2] at h
      cases h
    · simp only [h2] at h
      by_cases h3 : |nearest - z| ≤ EPS
      · rw [if_pos h3] at h
        exact ⟨nearest, lookup_key_mem h⟩
      · rw [if_neg h3] at h; cases h
  · simp only [find_level_by_top_elev, h1, Option.some.injEq] at h
    rw [← h]
    exact ⟨round_key z, lookup_key_mem h1⟩

theorem find_level_by_base_elev_eq_claim (m : LevelMap) (z : ℚ) :
    find_level_by_base_elev m z = map_lookup_claim m z := rfl

theorem find_level_by_top_elev_eq_claim (m : LevelMap) (z : ℚ) :
    find_level_by_top_elev m z = map_lookup_claim m z := rfl

/-! ## Claim C3 -/

/-- C3: provided every stored level label is a non-empty string (so that
Python truthiness coincides with presence), the combined lookup follows
exactly the claimed order: floor map (exact rounded key, else nearest
key within `EPS = 1e-3`), else ceiling map under the same rule, else the
label of the nearest floor key — stated as equality with the spec-worded
`level_lookup_claim`. -/
theorem c3_lookup_order (base_map top_map : LevelMap) (z : ℚ)
    (hbase : ∀ p ∈ base_map, p.2 ≠ "") (htop : ∀ p ∈ top_map, p.2 ≠ "") :
    nearest_level_for_z base_map top_map z = level_lookup_claim base_map top_map z := by
  unfold nearest_level_for_z level_lookup_claim
  rw [← find_level_by_base_elev_eq_claim, ← find_level_by_top_elev_eq_claim]
  rcases h1 : find_level_by_base_elev base_map z with _ | l1
  · rcases h2 : find_level_by_top_elev top_map z with _ | l2
    · simp [truthy]
    · have hl2 : l2 ≠ "" := by
        rcases find_level_by_top_elev_value_mem h2 with ⟨k, hk⟩
        exact htop (k, l2) hk
      have hemp : l2.isEmpty = false := by
        by_contra hcon
        rw [Bool.not_eq_false] at hcon
        exact hl2 ((String.isEmpty_iff l2).1 hcon)
      simp [truthy, hemp]
  · have hl1 : l1 ≠ "" := by
      rcases find_level_by_base_elev_value_mem h1 with ⟨k, hk⟩
      exact hbase (k, l1) hk
    have hemp : l1.isEmpty = false := by
      by_contra hcon
      rw [Bool.not_eq_false] at hcon
      exact hl1 ((String.isEmpty_iff l1).1 hcon)
    simp [truthy, hemp]

/-- Witness for C3: a one-story floor/ceiling map queried in between. -/
theorem c3_lookup_order_witness :
    ((∀ p ∈ ([(0, "L1")] : LevelMap), p.2 ≠ "") ∧
     (∀ p ∈ ([(10, "L1")] : LevelMap), p.2 ≠ "")) ∧
    nearest_level_for_z [(0, "L1")] [(10, "L1")] 5 =
      level_lookup_claim [(0, "L1")] [(10, "L1")] 5 := by
  have hb : ∀ p ∈ ([(0, "L1")] : LevelMap), p.2 ≠ "" := by
    intro p hp
    rcases List.mem_singleton.1 hp with rfl
    decide
  have ht : ∀ p ∈ ([(10, "L1")] : LevelMap), p.2 ≠ "" := by
    intro p hp
    rcases List.mem_singleton.1 hp with rfl
    decide
  exact ⟨⟨hb, ht⟩, c3_lookup_order [(0, "L1")] [(10, "L1")] 5 hb ht⟩

/-! ## Claim C10 -/

theorem dict_insert_ne_nil (m : LevelMap) (k : ℚ) (v : String) :
    dict_insert m k v ≠ [] := by
  cases m with
  | nil => simp [dict_insert]
  | cons p rest =>
    obtain ⟨k0, v0⟩ := p
    by_cases h : k0 = k <;> simp [dict_insert, h]

theorem build_maps_aux_fst_ne_nil (l : List Story) (z : ℚ) (bm tm : LevelMap)
    (h : bm ≠ []) : (build_maps_aux l z (bm, tm)).1 ≠ [] := by
  induction l generalizing z bm tm with
  | nil => simpa [build_maps_aux] using h
  | cons s rest ih =>
    simp only [build_maps_aux]
    exact ih _ _ _ (dict_insert_ne_nil _ _ _)

theorem build_maps_aux_snd_ne_nil (l : List Story) (z : ℚ) (bm tm : LevelMap)
    (h : tm ≠ []) : (build_maps_aux l z (bm, tm)).2 ≠ [] := by
  induction l generalizing z bm tm with
  | nil => simpa [build_maps_aux] using h
  | cons s rest ih =>
    simp only [build_maps_aux]
    exact ih _ _ _ (dict_insert_ne_nil _ _ _)

theorem build_story_mappings_base_ne_nil {stories : List Story} (hne : stories ≠ []) :
    (build_story_mappings stories).2.1 ≠ [] := by
  unfold build_story_mappings
  rcases hrev : stories.reverse with _ | ⟨s, rest⟩
  · exact absurd (by simpa using congrArg List.reverse hrev) hne
  · simp only [build_maps_aux]
    exact build_maps_aux_fst_ne_nil _ _ _ _ (dict_insert_ne_nil _ _ _)

theorem build_story_mappings_top_ne_nil {stories : List Story} (hne : stories ≠ []) :
    (build_story_mappings stories).2.2 ≠ [] := by
  unfold build_story_mappings
  rcases hrev : stories.reverse with _ | ⟨s, rest⟩
  · exact absurd (by simpa using congrArg List.reverse hrev) hne
  · simp only [build_maps_aux]
    exact build_maps_aux_snd_ne_nil _ _ _ _ (dict_insert_ne_nil _ _ _)

/-- C10: on the story mappings built from any non-empty story list, the
combined lookup `nearest_level_for_z` returns some story label for EVERY
query elevation — it never reaches a not-found outcome, because its
final fallback returns the label of the floor key nearest to `z`
unconditionally. -/
theorem c10_lookup_total (stories : List Story) (hne : stories ≠ []) (z : ℚ) :
    ∃ lvl, nearest_level_for_z (build_story_mappings stories).2.1
        (build_story_mappings stories).2.2 z = some lvl := by
  have hbm := build_story_mappings_base_ne_nil hne
  unfold nearest_level_for_z
  rcases h1 : find_level_by_base_elev (build_story_mappings stories).2.1 z with _ | l1
  · simp only [truthy]
    rcases h2 : find_level_by_top_elev (build_story_mappings stories).2.2 z with _ | l2
    · simp only [truthy]
      rcases nearest_key_isSome hbm z with ⟨k, hk⟩
      rw [hk]
      rcases lookup_key_isSome_of_mem (nearest_key_mem hk) with ⟨v, hv⟩
      exact ⟨v, hv⟩
    · by_cases hemp : l2.isEmpty
      · simp only [truthy, hemp, Bool.not_true, if_neg]
        rcases nearest_key_isSome hbm z with ⟨k, hk⟩
        rw [hk]
        rcases lookup_key_isSome_of_mem (nearest_key_mem hk) with ⟨v, hv⟩
        exact ⟨v, hv⟩
      · simp only [truthy, Bool.not_eq_true] at hemp
        simp only [truthy, hemp]
        exact ⟨l2, by simp⟩
  · by_cases hemp : l1.isEmpty
    · simp only [truthy, hemp, Bool.not_true, if_neg]
      rcases h2 : find_level_by_top_elev (build_story_mappings stories).2.2 z with _ | l2
      · simp only [truthy]
        rcases nearest_key_isSome hbm z with ⟨k, hk⟩
        rw [hk]
        rcases lookup_key_isSome_of_mem (nearest_key_mem hk) with ⟨v, hv⟩
        exact ⟨v, hv⟩
      · by_cases hemp2 : l2.isEmpty
        · simp only [truthy, hemp2, Bool.not_true, if_neg]
          rcases nearest_key_isSome hbm z with ⟨k, hk⟩
          rw [hk]
          rcases lookup_key_isSome_of_mem (nearest_key_mem hk) with ⟨v, hv⟩
          exact ⟨v, hv⟩
        · simp only [truthy, Bool.not_eq_true] at hemp2
          simp only [truthy, hemp2]
          exact ⟨l2, by simp⟩
    · simp only [truthy, Bool.not_eq_true] at hemp
      simp only [truthy, hemp]
      exact ⟨l1, by simp⟩

/-- Witness for C10: one story, query far away from any boundary. -/
theorem c10_lookup_total_witness :
    (([⟨"L1", 10, false, "None", false, 0, 0⟩] : List Story) ≠ []) ∧
    ∃ lvl, nearest_level_for_z
        (build_story_mappings [⟨"L1", 10, false, "None", false, 0, 0⟩]).2.1
        (build_story_mappings [⟨"L1", 10, false, "None", false, 0, 0⟩]).2.2
        1000000 = some lvl := by
  have h : ([⟨"L1", 10, false, "None", false, 0, 0⟩] : List Story) ≠ [] := by simp
  exact ⟨h, c10_lookup_total _ h 1000000⟩

/-! ## Claim C4 -/

theorem round_half_even_int_add (n : ℤ) (e : ℚ) (h : |e| ≤ 1 / 10) :
    round_half_even ((n : ℚ) + e) = n := by
  rcases abs_le.1 h with ⟨hlo, hhi⟩
  simp only [round_half_even]
  rcases le_or_lt 0 e with he | he
  · have hfl : ⌊(n : ℚ) + e⌋ = n := by
      rw [Int.floor_eq_iff]
      constructor
      · linarith
      · linarith
    have hcond : (n : ℚ) + e - (↑n : ℚ) < 1 / 2 := by linarith
    rw [hfl, if_pos hcond]
  · have hfl : ⌊(n : ℚ) + e⌋ = n - 1 := by
      rw [Int.floor_eq_iff]
      constructor
      · push_cast; linarith
      · push_cast; linarith
    have h2 : 1 / 2 < (n : ℚ) + e - (↑(n - 1) : ℚ) := by push_cast; linarith
    rw [hfl, if_neg (not_lt.2 (le_of_lt h2)), if_pos h2]
    omega

theorem round_key_near (m : ℤ) (x : ℚ) (h : |x * 1000000 - (m : ℚ)| ≤ 1 / 10) :
    round_key x = (m : ℚ) / 1000000 := by
  unfold round_key
  have hx : x * 1000000 = (m : ℚ) + (x * 1000000 - (m : ℚ)) := by ring
  rw [hx, round_half_even_int_add m _ h]

theorem noise_bound_round_key (q : ℚ) (m : ℤ) (d : ℚ)
    (hq : q * 1000000 = (m : ℚ)) (hd : |d| ≤ 1 / 10000000) :
    |(q + d) * 1000000 - (m : ℚ)| ≤ 1 / 10 := by
  have h1 : (q + d) * 1000000 - (m : ℚ) = d * 1000000 := by
    rw [← hq]; ring
  rw [h1, abs_mul, abs_of_nonneg (by norm_num : (0 : ℚ) ≤ 1000000)]
  have h2 := mul_le_mul_of_nonneg_right hd (by norm_num : (0 : ℚ) ≤ 1000000)
  linarith

/-- C4: merging a blind column stack through tops `10, 20, 30` (heights
`[10,10,10]` from base 0) against the story mappings built from the same
three stories (`L3, L2, L1` top-down, i.e. `L1, L2, L3` bottom-up)
recovers the labels `L1, L2, L3` for the three segments in order, even
when each extruded top elevation (and hence each derived segment bottom)
carries noise of up to `±1e-7`. -/
theorem c4_reconciler_recovers_labels (d1 d2 d3 : ℚ)
    (h1 : |d1| ≤ 1 / 10000000) (h2 : |d2| ≤ 1 / 10000000) (h3 : |d3| ≤ 1 / 10000000) :
    (merge_columns [[(5, 5, 10 + d1), (5, 5, 20 + d2), (5, 5, 30 + d3)]]
        (build_story_mappings
          [⟨"L3", 10, false, "None", false, 0, 0⟩,
           ⟨"L2", 10, false, "None", false, 0, 0⟩,
           ⟨"L1", 10, false, "None", false, 0, 0⟩]).2.1 []).map MergedColumn.level =
      [some "L1", some "L2", some "L3"] := by
  have hbm : (build_story_mappings
      [⟨"L3", 10, false, "None", false, 0, 0⟩,
       ⟨"L2", 10, false, "None", false, 0, 0⟩,
       ⟨"L1", 10, false, "None", false, 0, 0⟩]).2.1 =
      [(0, "L1"), (10, "L2"), (20, "L3")] := by
    norm_num [build_story_mappings, build_maps_aux, dict_insert, round_key, round_half_even]
  have hr0 : round_key 0 = 0 := by norm_num [round_key, round_half_even]
  have hr1 : round_key (10 + d1) = 10 := by
    have hb := noise_bound_round_key 10 10000000 d1 (by norm_num) h1
    have := round_key_near 10000000 (10 + d1) hb
    rw [this]; norm_num
  have hr2 : round_key (20 + d2) = 20 := by
    have hb := noise_bound_round_key 20 20000000 d2 (by norm_num) h2
    have := round_key_near 20000000 (20 + d2) hb
    rw [this]; norm_num
  have hf0 : find_level_by_base_elev [(0, "L1"), (10, "L2"), (20, "L3")] 0 = some "L1" := by
    simp only [find_level_by_base_elev, hr0, lookup_key]
    norm_num
  have hf1 : find_level_by_base_elev [(0, "L1"), (10, "L2"), (20, "L3")] (10 + d1) =
      some "L2" := by
    simp only [find_level_by_base_elev, hr1, lookup_key]
    norm_num
  have hf2 : find_level_by_base_elev [(0, "L1"), (10, "L2"), (20, "L3")] (20 + d2) =
      some "L3" := by
    simp only [find_level_by_base_elev, hr2, lookup_key]
    norm_num
  rw [hbm]
  simp [merge_columns, merge_stack, hf0, hf1, hf2]

/-- Witness for C4 at noise `+1e-7, -1e-7, +1e-7`. -/
theorem c4_reconciler_recovers_labels_witness :
    (|(1 : ℚ) / 10000000| ≤ 1 / 10000000 ∧ |(-1 : ℚ) / 10000000| ≤ 1 / 10000000) ∧
    (merge_columns
        [[(5, 5, 10 + 1 / 10000000), (5, 5, 20 + (-1) / 10000000), (5, 5, 30 + 1 / 10000000)]]
        (build_story_mappings
          [⟨"L3", 10, false, "None", false, 0, 0⟩,
           ⟨"L2", 10, false, "None", false, 0, 0⟩,
           ⟨"L1", 10, false, "None", false, 0, 0⟩]).2.1 []).map MergedColumn.level =
      [some "L1", some "L2", some "L3"] := by
  have ha : |(1 : ℚ) / 10000000| ≤ 1 / 10000000 := by
    rw [abs_le]; constructor <;> norm_num
  have hb : |(-1 : ℚ) / 10000000| ≤ 1 / 10000000 := by
    rw [abs_le]; constructor <;> norm_num
  exact ⟨⟨ha, hb⟩, c4_reconciler_recovers_labels (1 / 10000000) ((-1) / 10000000)
    (1 / 10000000) ha hb ha⟩

/-! ## Claim C6 -/

theorem dict_insert_fresh (m : LevelMap) (k : ℚ) (v : String)
    (h : k ∉ m.map Prod.fst) : dict_insert m k v = m ++ [(k, v)] := by
  induction m with
  | nil => rfl
  | cons p rest ih =>
    obtain ⟨k0, v0⟩ := p
    have hne : k0 ≠ k := by
      intro hk
      exact h (by simp [hk])
    have hk2 : k ∉ rest.map Prod.fst := by
      intro hk
      exact h (by simp [hk])
    simp only [dict_insert, if_neg hne]
    rw [ih hk2]
    simp

theorem build_maps_aux_fst_eq (l : List Story) (z : ℚ) (bm tm : LevelMap)
    (h : (bm.map Prod.fst ++ (base_entries l z).map Prod.fst).Nodup) :
    (build_maps_aux l z (bm, tm)).1 = bm ++ base_entries l z := by
  induction l generalizing z bm tm with
  | nil => simp [build_maps_aux, base_entries]
  | cons s rest ih =>
    simp only [base_entries, List.map_cons] at h
    rcases List.nodup_append.1 h with ⟨h1, h2, hdisj⟩
    have hfresh : round_key z ∉ bm.map Prod.fst := by
      intro hmem
      exact hdisj hmem (List.mem_cons_self _ _)
    simp only [build_maps_aux]
    rw [dict_insert_fresh bm (round_key z) s.level hfresh]
    have h' : ((bm ++ [(round_key z, s.level)]).map Prod.fst ++
        (base_entries rest (z + s.height)).map Prod.fst).Nodup := by
      rw [List.map_append, List.append_assoc]
      simpa using h
    rw [ih (z + s.height) _ _ h']
    simp [base_entries, List.append_assoc]

theorem base_entries_mem (l : List Story) (z : ℚ) (i : ℕ) (hi : i < l.length) :
    (round_key (z + ((l.take i).map Story.height).sum), (l.get ⟨i, hi⟩).level) ∈
      base_entries l z := by
  induction l generalizing z i with
  | nil => simp at hi
  | cons s rest ih =>
    cases i with
    | zero => simp [base_entries]
    | succ i =>
      have hi' : i < rest.length := by simpa using hi
      have hmem := ih (z + s.height) i hi'
      simp only [List.take_succ_cons, List.map_cons, List.sum_cons, ← add_assoc,
        base_entries]
      exact List.mem_cons_of_mem _ hmem

theorem lookup_key_of_mem_nodup {m : LevelMap} (hnodup : (m.map Prod.fst).Nodup)
    {k : ℚ} {v : String} (hm : (k, v) ∈ m) : lookup_key m k = some v := by
  induction m with
  | nil => cases hm
  | cons p rest ih =>
    obtain ⟨k0, v0⟩ := p
    simp only [List.map_cons, List.nodup_cons] at hnodup
    rcases List.mem_cons.1 hm with heq | hm2
    · cases heq
      simp [lookup_key]
    · have hkmem : k ∈ rest.map Prod.fst := List.mem_map.2 ⟨(k, v), hm2, rfl⟩
      have hne : k0 ≠ k := fun hk => hnodup.1 (hk ▸ hkmem)
      simp only [lookup_key, if_neg hne]
      exact ih hnodup.2 hm2

/-- C6 (counterexample): with two strictly positive story heights of
`1e-9` the rounded base elevations of `L1` and `L2` collide at key `0`,
the later insertion overwrites the earlier one, and looking up the floor
elevation of the bottom story `L1` (which is `0`) returns `L2` — the
round-trip fails even though every height is positive. -/
theorem c6_counterexample_tiny_heights :
    (∀ s ∈ ([⟨"L2", 1 / 1000000000, false, "None", false, 0, 0⟩,
             ⟨"L1", 1 / 1000000000, false, "None", false, 0, 0⟩] : List Story),
      0 < s.height) ∧
    story_base_elevation
      ([⟨"L2", 1 / 1000000000, false, "None", false, 0, 0⟩,
        ⟨"L1", 1 / 1000000000, false, "None", false, 0, 0⟩] : List Story).reverse 0 0 = 0 ∧
    (([⟨"L2", 1 / 1000000000, false, "None", false, 0, 0⟩,
       ⟨"L1", 1 / 1000000000, false, "None", false, 0, 0⟩] : List Story).reverse.head?.map
        Story.level) = some "L1" ∧
    find_level_by_base_elev
        (build_story_mappings
          [⟨"L2", 1 / 1000000000, false, "None", false, 0, 0⟩,
           ⟨"L1", 1 / 1000000000, false, "None", false, 0, 0⟩]).2.1 0 = some "L2" := by
  refine ⟨?_, ?_, ?_, ?_⟩
  · intro s hs
    rcases List.mem_cons.1 hs with rfl | hs
    · norm_num
    · rcases List.mem_cons.1 hs with rfl | hs
      · norm_num
      · cases hs
  · norm_num [story_base_elevation]
  · rfl
  · norm_num [build_story_mappings, build_maps_aux, dict_insert, round_key,
      round_half_even, find_level_by_base_elev, lookup_key]

/-- C6 (amended): for every story (bottom-up index `i`) of the list used
to build the mappings, looking up its floor elevation through
`find_level_by_base_elev` returns that story's own level — provided the
stories' rounded base elevations are pairwise distinct (positive heights
alone do not guarantee this; sub-1e-6 heights can collide after
rounding, as the counterexample shows). -/
theorem c6_round_trip_amended (stories : List Story) (i : ℕ)
    (hi : i < stories.reverse.length)
    (hkeys : ((base_entries stories.reverse 0).map Prod.fst).Nodup) :
    find_level_by_base_elev (build_story_mappings stories).2.1
        (story_base_elevation stories.reverse 0 i) =
      some ((stories.reverse.get ⟨i, hi⟩).level) := by
  have hbm : (build_story_mappings stories).2.1 = base_entries stories.reverse 0 := by
    have h := build_maps_aux_fst_eq stories.reverse 0 [] [] (by simpa using hkeys)
    simpa [build_story_mappings] using h
  have hmem := base_entries_mem stories.reverse 0 i hi
  have hlk := lookup_key_of_mem_nodup hkeys hmem
  rw [hbm]
  simp only [find_level_by_base_elev, story_base_elevation, hlk]

/-- Witness for C6 (amended) at two stories of height 10, bottom story
`L1`: the lookup of its floor elevation returns `L1`. -/
theorem c6_round_trip_amended_witness :
    ((0 : ℕ) < ([⟨"L2", 10, false, "None", false, 0, 0⟩,
                 ⟨"L1", 10, false, "None", false, 0, 0⟩] : List Story).reverse.length ∧
     ((base_entries ([⟨"L2", 10, false, "None", false, 0, 0⟩,
                      ⟨"L1", 10, false, "None", false, 0, 0⟩] : List Story).reverse 0).map
        Prod.fst).Nodup) ∧
    find_level_by_base_elev
        (build_story_mappings
          [⟨"L2", 10, false, "None", false, 0, 0⟩,
           ⟨"L1", 10, false, "None", false, 0, 0⟩]).2.1
        (story_base_elevation
          ([⟨"L2", 10, false, "None", false, 0, 0⟩,
            ⟨"L1", 10, false, "None", false, 0, 0⟩] : List Story).reverse 0 0) =
      some "L1" := by
  have hi : (0 : ℕ) < ([⟨"L2", 10, false, "None", false, 0, 0⟩,
      ⟨"L1", 10, false, "None", false, 0, 0⟩] : List Story).reverse.length := by
    simp
  have hkeys : ((base_entries ([⟨"L2", 10, false, "None", false, 0, 0⟩,
      ⟨"L1", 10, false, "None", false, 0, 0⟩] : List Story).reverse 0).map
        Prod.fst).Nodup := by
    have hentries : (base_entries ([⟨"L2", 10, false, "None", false, 0, 0⟩,
        ⟨"L1", 10, false, "None", false, 0, 0⟩] : List Story).reverse 0).map Prod.fst =
        [0, 10] := by
      norm_num [base_entries, round_key, round_half_even]
    rw [hentries]
    norm_num
  have h := c6_round_trip_amended
    [⟨"L2", 10, false, "None", false, 0, 0⟩, ⟨"L1", 10, false, "None", false, 0, 0⟩]
    0 hi hkeys
  exact ⟨⟨hi, hkeys⟩, h⟩

end Etabs
